import Mathlib

/-!
Verification development for the wiw-py client (src/wiw-py/wheniwork.py).

The embedding models the `HTTPSession` class: its constructor, the two
login paths (`token_login`, `credential_login`), the session-cookie file
helpers (`_read_session`, `_write_session`) and the four domain
operations.  Session state is a record holding the HTTP header map, the
content of the sessioncookie file and the `LOGGED` flag.  Network
responses are supplied by an oracle record; Python exceptions are
modelled with `Except`; every operation additionally reports the list of
network calls it performed.  Only the header keys the code touches
(`Authorization`, `Content-type`) are tracked; the fresh
`requests.Session()` default header set contains neither, so the fresh
header map is modelled as `[]`.
-/

namespace WiwPy

/-- Header map of the `requests` session, in insertion order.  The code
only ever uses one fixed capitalization per key, so a plain string-keyed
association list is faithful. -/
abbrev Headers := List (String × String)

/-- Lookup of `headers[key]` (returns `none` where Python raises `KeyError`). -/
def headersGet : Headers → String → Option String
  | [], _ => none
  | (k, v) :: rest, key => if k = key then some v else headersGet rest key

/-- `headers.update(\x7bkey: val\x7d)`: overwrite in place, or append. -/
def headersSet : Headers → String → String → Headers
  | [], key, val => [(key, val)]
  | (k, v) :: rest, key, val =>
      if k = key then (key, val) :: rest else (k, v) :: headersSet rest key val

/-- State of one `HTTPSession` instance: header map of `self.session`,
content of the `sessioncookie` file (`none` when the file does not
exist) and the `LOGGED` flag. -/
structure SessionState where
  headers : Headers
  store : Option String
  logged : Bool
deriving DecidableEq

/-- Python exceptions the modelled code can raise. -/
inductive Err where
  | exceptionMsg (msg : String)
  | keyError (key : String)
  | attributeError (attr : String)
deriving DecidableEq

/-- One network call, as observable by a test double. -/
inductive Call where
  | probeMe (auth : String)
  | loginPost (email password : String)
  | unassignPost (shift_ids : List Int)
  | takePost (shift_id : Int)
deriving DecidableEq

/-- Result of running one method: final state, trace of network calls,
and either the returned value or the exception that escaped.  State
changes made before a raise persist, as in Python. -/
structure OpRes (α : Type) where
  state : SessionState
  calls : List Call
  out : Except Err α

/-- Response of the `GET /people/me` probe: HTTP status and the optional
`token` field of the JSON body. -/
structure ProbeResp where
  status : Nat
  token : Option String

/-- Response of the `POST /login` call: HTTP status and the optional
`token` field of the JSON body. -/
structure LoginResp where
  status : Nat
  token : Option String

/-- Oracle describing how the remote service answers the two
authentication endpoints; the probe answer may depend on the
`Authorization` header value sent with it. -/
structure NetEnv where
  probeMe : String → ProbeResp
  loginPost : String → String → LoginResp

/-- Embedding of `HTTPSession._read_session`: on `FileNotFoundError`
(no stored file) return `False`; otherwise set the `Authorization`
header to the file content and return it (possibly the empty string). -/
def read_session (s : SessionState) : SessionState × Option String :=
  match s.store with
  | some token =>
      ({ s with headers := headersSet s.headers "Authorization" token }, some token)
  | none => (s, none)

/-- Embedding of `HTTPSession._write_session`: `open(..., "w")` first
truncates (or creates) the file, then `self.session.headers["Authorization"]`
is read; when that key is absent the lookup raises `KeyError` and the
file is left empty. -/
def write_session (s : SessionState) : SessionState × Except Err Unit :=
  match headersGet s.headers "Authorization" with
  | some token => ({ s with store := some token }, Except.ok ())
  | none => ({ s with store := some "" }, Except.error (Err.keyError "Authorization"))

/-- Embedding of `HTTPSession.token_login`.  The `token` parameter is
immediately overwritten by `token = self._read_session()` before any
use, so `tokenArg` is dead.  A falsy read result (`False` or the empty
string) returns `False`; otherwise the stored token is attached and the
`/people/me` probe is issued; a non-200 status returns `False`; on 200
the refreshed `token` field is attached, `LOGGED` is set and the token
is persisted. -/
def token_login (tokenArg : Option String) (net : NetEnv) (s : SessionState) : OpRes Bool :=
  let rs := read_session s
  let s1 := rs.1
  match rs.2 with
  | none => { state := s1, calls := [], out := Except.ok false }
  | some token =>
      if token = "" then { state := s1, calls := [], out := Except.ok false }
      else
        let s2 := { s1 with headers := headersSet s1.headers "Authorization" token }
        let resp := net.probeMe token
        if resp.status ≠ 200 then
          { state := s2, calls := [Call.probeMe token], out := Except.ok false }
        else
          match resp.token with
          | none =>
              { state := s2, calls := [Call.probeMe token],
                out := Except.error (Err.keyError "token") }
          | some new_token =>
              let s3 := { s2 with
                headers := headersSet s2.headers "Authorization" new_token,
                logged := true }
              let ws := write_session s3
              match ws.2 with
              | Except.error e =>
                  { state := ws.1, calls := [Call.probeMe token], out := Except.error e }
              | Except.ok _ =>
                  { state := ws.1, calls := [Call.probeMe token], out := Except.ok true }

/-- Embedding of `HTTPSession.credential_login`: posts the login
secret; a non-200 status returns `False`; on 200 the code sets
`LOGGED = True`, reads the `token` field (a `KeyError` if absent),
attaches it and persists it. -/
def credential_login (login_details : String × String) (net : NetEnv) (s : SessionState) :
    OpRes Bool :=
  let resp := net.loginPost login_details.1 login_details.2
  let calls := [Call.loginPost login_details.1 login_details.2]
  if resp.status ≠ 200 then { state := s, calls := calls, out := Except.ok false }
  else
    let s1 := { s with logged := true }
    match resp.token with
    | none => { state := s1, calls := calls, out := Except.error (Err.keyError "token") }
    | some token =>
        let s2 := { s1 with headers := headersSet s1.headers "Authorization" token }
        let ws := write_session s2
        match ws.2 with
        | Except.error e => { state := ws.1, calls := calls, out := Except.error e }
        | Except.ok _ => { state := ws.1, calls := calls, out := Except.ok true }

/-- Which branch of the constructor completed: `token_login` returned
`True` (the TOKEN_REUSED terminal state of the spec), or the fall-back
`credential_login` branch ran to the end.  The code ignores the boolean
result of `credential_login`, so `credentialBranch` covers both a real
credential authentication and a silently ignored login failure; the two
are distinguished by the final `logged` flag. -/
inductive InitDone where
  | tokenReused
  | credentialBranch
deriving DecidableEq

/-- The two environment variables consulted by the constructor. -/
structure ConfigEnv where
  wiwEmail : Option String
  wiwPassword : Option String

/-- Fresh instance state before any login: fresh `requests.Session()`
headers (no `Authorization`, no `Content-type`), the pre-existing
sessioncookie file content, `LOGGED = False`. -/
def initialState (store0 : Option String) : SessionState :=
  { headers := [], store := store0, logged := false }

/-- Authentication part of `HTTPSession.__init__`, after the login
details are resolved: `if not self.token_login(): self.credential_login();
self._write_session()`.  The boolean result of `credential_login` is
discarded, and `_write_session` runs unconditionally on that branch. -/
def init_auth (login_details : String × String) (net : NetEnv) (store0 : Option String) :
    OpRes InitDone :=
  let s0 := initialState store0
  let tl := token_login none net s0
  match tl.out with
  | Except.error e => { state := tl.state, calls := tl.calls, out := Except.error e }
  | Except.ok true =>
      { state := tl.state, calls := tl.calls, out := Except.ok InitDone.tokenReused }
  | Except.ok false =>
      let cl := credential_login login_details net tl.state
      match cl.out with
      | Except.error e =>
          { state := cl.state, calls := tl.calls ++ cl.calls, out := Except.error e }
      | Except.ok _ =>
          let ws := write_session cl.state
          match ws.2 with
          | Except.error e =>
              { state := ws.1, calls := tl.calls ++ cl.calls, out := Except.error e }
          | Except.ok _ =>
              { state := ws.1, calls := tl.calls ++ cl.calls,
                out := Except.ok InitDone.credentialBranch }

/-- Embedding of `HTTPSession.__init__`.  When `login_details` is
`None` and the two environment variables are not both set, the class
body defines no `LOGIN_DETAILS` default, so the guard
`if self.LOGIN_DETAILS is None` itself raises `AttributeError` on the
unbound attribute; the `raise Exception("Could not find login details...")`
line below it is unreachable. -/
def initHTTPSession (login_details : Option (String × String)) (cfg : ConfigEnv)
    (net : NetEnv) (store0 : Option String) : OpRes InitDone :=
  match login_details with
  | some ld => init_auth ld net store0
  | none =>
      match cfg.wiwEmail, cfg.wiwPassword with
      | some email, some password => init_auth (email, password) net store0
      | _, _ =>
          { state := initialState store0, calls := [],
            out := Except.error (Err.attributeError "LOGIN_DETAILS") }

/-- A shift record as far as the client inspects it: an identifier and
the owner marker `user_id` (`"0"` is the unassigned sentinel). -/
structure Shift where
  id : Nat
  user_id : String
deriving DecidableEq

/-- Python `list.remove(x)`: delete the first element equal to `x`
(structural equality on dicts). -/
def pyListRemove : List Shift → Shift → List Shift
  | [], _ => []
  | y :: ys, x => if y = x then ys else y :: pyListRemove ys x

/-- The `for shift in json["shifts"]` loop of `list_open_shifts`,
which calls `json["shifts"].remove(shift)` on the list being iterated.
CPython iterates by an internal index `i`: each step fetches the
element at `i` of the current (possibly shrunk) list, and the loop ends
when `i` reaches the current length.  The `fuel` argument only bounds
the recursion: `i` grows by one per step and the length never grows, so
`length + 1` steps always reach the exit condition and the fuel-0 case
never fires for the fuel used in `list_open_shifts_filter`. -/
def list_open_shifts_loop : Nat → List Shift → Nat → List Shift
  | 0, shifts, _ => shifts
  | fuel + 1, shifts, i =>
      if h : i < shifts.length then
        let shift := shifts.get ⟨i, h⟩
        if shift.user_id ≠ "0" then
          list_open_shifts_loop fuel (pyListRemove shifts shift) (i + 1)
        else
          list_open_shifts_loop fuel shifts (i + 1)
      else shifts

/-- The filtering part of `HTTPSession.list_open_shifts`, applied to
the `shifts` collection of the endpoint response. -/
def list_open_shifts_filter (shifts : List Shift) : List Shift :=
  list_open_shifts_loop (shifts.length + 1) shifts 0

/-- Response of the `POST /shifts/unassign` call: the optional
`shifts` field of the JSON body (`none` when the key is absent). -/
structure UnassignResp where
  shifts : Option (List Shift)
deriving DecidableEq

/-- Embedding of `HTTPSession.release_shift`.  The Python
`original_headers = self.session.headers` binds an alias of the live
header dict, not a copy; `update` mutates that same object and the
final `self.session.headers = original_headers` reassigns the mutated
object, so the `Content-type` entry survives the call.  The argument
check precedes the header update and the network call.  The method
returns `False` (here `none`) exactly when the response JSON lacks the
`shifts` key, and the raw response otherwise. -/
def release_shift (shift_id : Option Int) (shift_ids : Option (List Int))
    (resp : UnassignResp) (s : SessionState) : OpRes (Option UnassignResp) :=
  if (shift_id.isNone && shift_ids.isNone) || (shift_id.isSome && shift_ids.isSome) then
    { state := s, calls := [],
      out := Except.error (Err.exceptionMsg "Must provide either shift_id or shift, but not both.") }
  else
    let id_list : List Int :=
      match shift_id, shift_ids with
      | none, some l => l
      | some i, _ => [i]
      | none, none => []
    let s1 := { s with headers := headersSet s.headers "Content-type" "application/json" }
    let result : Option UnassignResp := if resp.shifts.isNone then none else some resp
    { state := s1, calls := [Call.unassignPost id_list], out := Except.ok result }

/-- The shift record of a take response, as far as the client inspects
it: the `is_open` marker. -/
structure TakeShiftRec where
  is_open : Bool
deriving DecidableEq

/-- Response of the `POST /shifts/.../take` call: the optional `shift`
field of the JSON body (`none` when the key is absent). -/
structure TakeResp where
  shift : Option TakeShiftRec
deriving DecidableEq

/-- Embedding of `HTTPSession.take_shift`.  Same header aliasing as in
`release_shift`.  The method returns `False` (here `none`) exactly when
the response JSON lacks the `shift` key, and the raw response
otherwise; the `is_open` field of the returned record is never
examined. -/
def take_shift (shift_id : Option Int) (resp : TakeResp) (s : SessionState) :
    OpRes (Option TakeResp) :=
  match shift_id with
  | none =>
      { state := s, calls := [], out := Except.error (Err.exceptionMsg "Must provide shift_id.") }
  | some i =>
      let s1 := { s with headers := headersSet s.headers "Content-type" "application/json" }
      let result : Option TakeResp := if resp.shift.isNone then none else some resp
      { state := s1, calls := [Call.takePost i], out := Except.ok result }

/-- Microseconds of `timedelta(days=d)`. -/
def daysToMicro (d : Nat) : Nat := d * 86400000000

/-- The strftime format truncated with `[:-3]` keeps millisecond
precision: microseconds since epoch become milliseconds. -/
def msFromMicro (us : Nat) : Nat := us / 1000

/-- Query parameters of the `GET /2/shifts` request issued by
`list_my_shifts`, with timestamps as milliseconds since epoch. -/
structure ShiftsQuery where
  user_id : String
  startMs : Nat
  endMs : Nat
deriving DecidableEq

/-- Embedding of the query built by `HTTPSession.list_my_shifts`:
`user_id` is the hard-coded literal string in the source, `start` is
the first `datetime.utcnow()` reading and `end` is a second, separate
`datetime.utcnow()` reading plus 365 days.  `now1` and `now2` are the
two clock readings in microseconds since epoch, `now1 ≤ now2`. -/
def list_my_shifts_query (now1 now2 : Nat) : ShiftsQuery :=
  { user_id := "46724863",
    startMs := msFromMicro now1,
    endMs := msFromMicro (now2 + daysToMicro 365) }

/-- Whether a `release_shift` result is the negative outcome (the
Python `False` return value). -/
def releaseIsNegative (r : OpRes (Option UnassignResp)) : Bool :=
  match r.out with
  | Except.ok none => true
  | _ => false

/-- Whether a `take_shift` result is the positive outcome (the raw
response object rather than the Python `False`). -/
def takeIsPositive (r : OpRes (Option TakeResp)) : Bool :=
  match r.out with
  | Except.ok (some _) => true
  | _ => false

/-- Network oracle on which both authentication endpoints reject with
HTTP 401. -/
def failNet : NetEnv :=
  { probeMe := fun _ => { status := 401, token := none },
    loginPost := fun _ _ => { status := 401, token := none } }

/-- Construction run for C1: stored token `"STALE"`, both endpoints
reject with 401. -/
def c1Run : OpRes InitDone :=
  initHTTPSession (some ("user@example.com", "hunter2")) ⟨none, none⟩ failNet (some "STALE")

/-- Construction run for C1, variant with no stored token file. -/
def c1RunAbsent : OpRes InitDone :=
  initHTTPSession (some ("user@example.com", "hunter2")) ⟨none, none⟩ failNet none

/-- C1: the claim says that when the stored token is rejected (or absent)
and credential login returns non-success, construction fails with an
authentication error and the persisted token is untouched.  The code
ignores the `False` result of `credential_login`: with a stale stored
token, construction completes without any error (`credentialBranch`,
`LOGGED` still false) and rewrites the stale token; with no stored
token, construction fails but with `KeyError` on the missing
`Authorization` header, after `_write_session` has truncated the token
file to the empty string. -/
theorem C1_construction_survives_failed_login :
    c1Run.out = Except.ok InitDone.credentialBranch ∧
    c1Run.state.logged = false ∧
    c1Run.state.store = some "STALE" ∧
    c1RunAbsent.out = Except.error (Err.keyError "Authorization") ∧
    c1RunAbsent.state.store = some "" :=
  ⟨rfl, rfl, rfl, rfl, rfl⟩

/-- Mixed input for C2: two consecutive assigned shifts. -/
def c2Shifts : List Shift := [{ id := 1, user_id := "1" }, { id := 2, user_id := "2" }]

/-- C2: the claim says every record returned by the open-shifts filter
has owner id `"0"` and that no element is skipped.  Removing the first
assigned shift while iterating advances the internal index past the
second one, which is therefore kept in the output although its owner id
is `"2"`, not the unassigned sentinel. -/
theorem C2_filter_returns_assigned_shift :
    list_open_shifts_filter c2Shifts = [{ id := 2, user_id := "2" }] ∧
    ({ id := 2, user_id := "2" } : Shift).user_id ≠ "0" :=
  ⟨rfl, by decide⟩

/-- Unassign response for C3: the `shifts` key present but empty. -/
def c3Resp : UnassignResp := { shifts := some [] }

/-- C3 counterexample: at the response `\x7b"shifts": []\x7d` the claim
demands a negative outcome (empty collection), but `release_shift`
returns the raw response (a positive outcome), so the claimed
equivalence fails at this input. -/
theorem C3_empty_shifts_counterexample :
    ¬ (releaseIsNegative (release_shift (some 42) none c3Resp (initialState none)) = true ↔
        (c3Resp.shifts = none ∨ c3Resp.shifts = some [])) := by
  decide

/-- C3 amended: `release_shift` returns the negative outcome exactly
when the response lacks the `shifts` key; the emptiness of the
collection is never examined, so `\x7b"shifts": []\x7d` yields a positive
result.  This holds for both argument forms of the call. -/
theorem C3_release_negative_iff_shifts_key_missing (i : Int) (ids : List Int)
    (resp : UnassignResp) (s : SessionState) :
    (releaseIsNegative (release_shift (some i) none resp s) = true ↔ resp.shifts = none) ∧
    (releaseIsNegative (release_shift none (some ids) resp s) = true ↔ resp.shifts = none) := by
  cases hr : resp.shifts <;> simp [release_shift, releaseIsNegative, hr]

/-- Take response for C4: `shift` key present, still marked open. -/
def c4Resp : TakeResp := { shift := some { is_open := true } }

/-- C4 counterexample: at the response `\x7b"shift": \x7b"is_open": true\x7d\x7d`
the claim demands a negative outcome (shift still open), but
`take_shift` returns the raw response (a positive outcome), so the
claimed equivalence fails at this input. -/
theorem C4_still_open_counterexample :
    ¬ (takeIsPositive (take_shift (some 77) c4Resp (initialState none)) = true ↔
        c4Resp.shift = some { is_open := false }) := by
  decide

/-- C4 amended: `take_shift` returns the positive outcome exactly when
the response contains the `shift` key; the `is_open` marker is never
examined, so a shift still marked open also yields a positive result,
and only a missing `shift` key yields the negative outcome. -/
theorem C4_take_positive_iff_shift_key_present (i : Int) (resp : TakeResp) (s : SessionState) :
    takeIsPositive (take_shift (some i) resp s) = true ↔ resp.shift.isSome = true := by
  cases hr : resp.shift <;> simp [take_shift, takeIsPositive, hr]

/-- C5: the claim says the header state after each mutating call equals
the state before it.  `original_headers = self.session.headers` is an
alias of the live dict, so the final reassignment restores nothing:
starting from the fresh header map (empty), both operations leave the
`Content-type: application/json` entry behind. -/
theorem C5_content_type_header_survives :
    (release_shift (some 42) none { shifts := some [] } (initialState none)).state.headers =
      [("Content-type", "application/json")] ∧
    (take_shift (some 77) { shift := none } (initialState none)).state.headers =
      [("Content-type", "application/json")] ∧
    (initialState none).headers = [] :=
  ⟨rfl, rfl, rfl⟩

/-- C6: the claim says the shifts query carries the current identity as
`user_id` and a window ending exactly 365 days after its start.  The
source hard-codes `user_id = "46724863"` (so for an authenticated
identity such as `"12345"` the parameter does not denote it), and the
window end comes from a second clock reading: with the clock 1000
microseconds later at the second reading, the end is not start plus
365 days. -/
theorem C6_hardcoded_user_id_and_window :
    (list_my_shifts_query 0 1000).user_id = "46724863" ∧
    (list_my_shifts_query 0 1000).user_id ≠ "12345" ∧
    (list_my_shifts_query 0 1000).endMs ≠ (list_my_shifts_query 0 1000).startMs + 365 * 86400000 :=
  ⟨rfl, by decide, by decide⟩

/-- C7: every invalid argument combination — `release_shift` with both
a single id and a list, `release_shift` with neither, `take_shift` with
no id — raises the usage `Exception` of the source, records no network
call, and leaves the session state untouched. -/
theorem C7_usage_error_before_network (i : Int) (l : List Int)
    (resp : UnassignResp) (respT : TakeResp) (s : SessionState) :
    (release_shift none none resp s).calls = [] ∧
    (release_shift none none resp s).out =
      Except.error (Err.exceptionMsg "Must provide either shift_id or shift, but not both.") ∧
    (release_shift none none resp s).state = s ∧
    (release_shift (some i) (some l) resp s).calls = [] ∧
    (release_shift (some i) (some l) resp s).out =
      Except.error (Err.exceptionMsg "Must provide either shift_id or shift, but not both.") ∧
    (release_shift (some i) (some l) resp s).state = s ∧
    (take_shift none respT s).calls = [] ∧
    (take_shift none respT s).out = Except.error (Err.exceptionMsg "Must provide shift_id.") ∧
    (take_shift none respT s).state = s :=
  ⟨rfl, rfl, rfl, rfl, rfl, rfl, rfl, rfl, rfl⟩

/-- Construction run for C8: no explicit login details, only one of the
two environment variables set. -/
def c8Run : OpRes InitDone :=
  initHTTPSession none { wiwEmail := none, wiwPassword := some "hunter2" } failNet (some "T")

/-- C8: the claim says construction without a login secret fails with a
configuration error before any network call.  It does fail before any
network call, but with `AttributeError` on the unbound `LOGIN_DETAILS`
attribute: the class body defines no `LOGIN_DETAILS` default, so the
guard `if self.LOGIN_DETAILS is None` raises before the intended
`raise Exception("Could not find login details...")`, which is
unreachable. -/
theorem C8_missing_env_raises_attribute_error :
    c8Run.out = Except.error (Err.attributeError "LOGIN_DETAILS") ∧
    c8Run.calls = [] :=
  ⟨rfl, rfl⟩

/-- C9: for every non-empty stored token that the probe endpoint
accepts with HTTP 200 and a refreshed token, construction ends in the
TOKEN_REUSED state, and the persisted store equals the refreshed token,
which equals the `Authorization` credential attached to the client.
The empty string counts as no stored token (the falsy check in
`token_login`), so the stored token is assumed non-empty. -/
theorem C9_probe_accepted_token_reused (email password : String) (net : NetEnv)
    (t t2 : String) (ht : t ≠ "")
    (hp : net.probeMe t = { status := 200, token := some t2 }) :
    (initHTTPSession (some (email, password)) ⟨none, none⟩ net (some t)).out =
      Except.ok InitDone.tokenReused ∧
    (initHTTPSession (some (email, password)) ⟨none, none⟩ net (some t)).state.store = some t2 ∧
    headersGet (initHTTPSession (some (email, password)) ⟨none, none⟩ net (some t)).state.headers
      "Authorization" = some t2 := by
  simp [initHTTPSession, init_auth, token_login, read_session, write_session,
    initialState, headersSet, headersGet, hp, ht]

/-- Network oracle for the C9 witness: the probe accepts any token and
returns the refreshed token `"T2"`. -/
def c9Net : NetEnv :=
  { probeMe := fun _ => { status := 200, token := some "T2" },
    loginPost := fun _ _ => { status := 401, token := none } }

/-- C9 witness: the hypotheses of `C9_probe_accepted_token_reused` hold
at the concrete stored token `"T1"` with oracle `c9Net`, and the
conclusion follows by applying the theorem there. -/
theorem C9_probe_accepted_token_reused_witness :
    (("T1" : String) ≠ "" ∧
      c9Net.probeMe "T1" = { status := 200, token := some "T2" }) ∧
    ((initHTTPSession (some ("user@example.com", "hunter2")) ⟨none, none⟩ c9Net (some "T1")).out =
        Except.ok InitDone.tokenReused ∧
      (initHTTPSession (some ("user@example.com", "hunter2")) ⟨none, none⟩ c9Net
          (some "T1")).state.store = some "T2" ∧
      headersGet (initHTTPSession (some ("user@example.com", "hunter2")) ⟨none, none⟩ c9Net
          (some "T1")).state.headers "Authorization" = some "T2") :=
  ⟨⟨by decide, rfl⟩,
    C9_probe_accepted_token_reused "user@example.com" "hunter2" c9Net "T1" "T2" (by decide) rfl⟩

/-- C10: the `token` parameter of `token_login` is dead: it is
overwritten by `token = self._read_session()` before any use, so the
call with any supplied token is indistinguishable from the call with no
argument, on every state and oracle. -/
theorem C10_token_login_ignores_argument (t : String) (net : NetEnv) (s : SessionState) :
    token_login (some t) net s = token_login none net s :=
  rfl

end WiwPy
